import Mathlib

/-!
Shallow embedding of the dantesync synchronization core.

Rust `i64` values are modelled as `Int` (overflow is proved absent where a
claim needs it), `u32`/`usize` as `Nat`, and `f64` servo arithmetic as exact
rationals `ℚ` (the claims considered are structural: negation, accumulation,
clamping, and the shape of the applied factor; none depends on f64 rounding).
`HashMap<u16, PendingSync>` is modelled as a duplicate-free association list
(insertion replaces the previous binding, as `HashMap::insert` does).
Fallible clock calls are driven by an explicit success oracle and the calls
issued to the clock are collected in an output list.
-/

/-- Constant MIN_DELTA_NS from controller.rs (1 ms). -/
def MIN_DELTA_NS : Int := 1000000

/-- Constant MAX_DELTA_NS from controller.rs (2 s). -/
def MAX_DELTA_NS : Int := 2000000000

/-- Constant MAX_PHASE_OFFSET_FOR_STEP_NS from controller.rs (1 ms). -/
def MAX_PHASE_OFFSET_FOR_STEP_NS : Int := 1000000

/-- Default value of the legacy config field max_freq_adj_ppm (config.rs,
SystemConfig::default). The field is documented there as not read by the
controller. -/
def max_freq_adj_ppm_default : ℚ := 500

/-- PtpTimestamp from ptp.rs: 32-bit seconds and 32-bit nanoseconds.
The u32 fields are modelled as Nat; the u32 range enters as hypotheses. -/
structure PtpTimestamp where
  seconds : Nat
  nanoseconds : Nat
deriving Repr, DecidableEq

/-- PtpTimestamp::to_nanos from ptp.rs:
seconds as i64 * 1_000_000_000 + nanoseconds as i64. -/
def PtpTimestamp.to_nanos (t : PtpTimestamp) : Int :=
  (t.seconds : Int) * 1000000000 + (t.nanoseconds : Int)

/-- Phase-offset computation from controller.rs lines 197-199 (the first
statements of handle_sync_pair). Rust `%` on i64 truncates toward zero,
which is `Int.tmod`. -/
def normalize_phase (t1_ns t2_ns : Int) : Int :=
  let p := Int.tmod t2_ns 1000000000 - Int.tmod t1_ns 1000000000
  if p > 500000000 then p - 1000000000
  else if p < -500000000 then p + 1000000000
  else p

/-- PiServo state from servo.rs. -/
structure PiServo where
  kp : ℚ
  ki : ℚ
  integral : ℚ
  max_integral : ℚ
deriving Repr, DecidableEq

/-- PiServo::new from servo.rs: zero integral, max_integral = 200. -/
def PiServo.new (kp ki : ℚ) : PiServo :=
  { kp := kp, ki := ki, integral := 0, max_integral := 200 }

/-- PiServo::reset from servo.rs: zero the integral. -/
def PiServo.reset (s : PiServo) : PiServo :=
  { s with integral := 0 }

/-- PiServo::sample from servo.rs: error = -offset_ns, integral
accumulation with two-sided clamping, output = proportional + integral.
Returns the updated servo state together with the adjustment in ppm. -/
def PiServo.sample (s : PiServo) (offset_ns : Int) : PiServo × ℚ :=
  let error : ℚ := -(offset_ns : ℚ)
  let i1 := s.integral + error * s.ki
  let i2 := if i1 > s.max_integral then s.max_integral else i1
  let i3 := if i2 < -s.max_integral then -s.max_integral else i2
  let proportional := error * s.kp
  ({ s with integral := i3 }, proportional + i3)

/-- Two-sided clamp on rationals, used to state what PiServo.sample does to
the integral. -/
def clampQ (x limit : ℚ) : ℚ :=
  if x > limit then limit else if x < -limit then -limit else x

/-- PendingSync from controller.rs: receive wallclock time (nanoseconds
since the Unix epoch, as SystemTime is only ever converted to that) and the
sender UUID (6 bytes, modelled as a list). -/
structure PendingSync where
  rx_time_sys : Nat
  source_uuid : List Nat
deriving Repr, DecidableEq

/-- Lookup in the pending-sync table (HashMap::get / the lookup half of
HashMap::remove). -/
def mapLookup (m : List (Nat × PendingSync)) (k : Nat) : Option PendingSync :=
  match m with
  | [] => none
  | kv :: rest => if kv.1 = k then some kv.2 else mapLookup rest k

/-- Removal of a key from the pending-sync table (the delete half of
HashMap::remove). -/
def mapErase (m : List (Nat × PendingSync)) (k : Nat) : List (Nat × PendingSync) :=
  m.filter (fun kv => kv.1 != k)

/-- Insertion into the pending-sync table; replaces any previous binding of
the key, as HashMap::insert does. -/
def mapInsert (m : List (Nat × PendingSync)) (k : Nat) (v : PendingSync) :
    List (Nat × PendingSync) :=
  (k, v) :: mapErase m k

/-- Controller state from controller.rs (the fields the synchronization
logic reads or writes; the RTC bookkeeping instants carry no claim). -/
structure PtpController where
  servo : PiServo
  pending_syncs : List (Nat × PendingSync)
  prev_t1_ns : Int
  prev_t2_ns : Int
  last_phase_offset_ns : Int
  last_adj_ppm : ℚ
  initial_epoch_offset_ns : Int
  epoch_aligned : Bool
  valid_count : Nat
  clock_settled : Bool
  settling_threshold : Nat
deriving Repr, DecidableEq

/-- PtpController::new from controller.rs: servo gains 0.8 / 0.2, empty
table, all counters zero, settling_threshold = 1. -/
def PtpController.new : PtpController :=
  { servo := PiServo.new (8/10) (2/10)
    pending_syncs := []
    prev_t1_ns := 0
    prev_t2_ns := 0
    last_phase_offset_ns := 0
    last_adj_ppm := 0
    initial_epoch_offset_ns := 0
    epoch_aligned := false
    valid_count := 0
    clock_settled := false
    settling_threshold := 1 }

/-- PtpController::reset_filter from controller.rs lines 262-267. -/
def reset_filter (c : PtpController) : PtpController :=
  { c with valid_count := 0, clock_settled := false, prev_t1_ns := 0, prev_t2_ns := 0 }

/-- Plausibility rejection condition of handle_sync_pair (controller.rs
lines 203-214): a previous pair exists and one of the deltas is out of
range. -/
def delta_out_of_range (c : PtpController) (t1_ns t2_ns : Int) : Prop :=
  c.prev_t1_ns > 0 ∧ c.prev_t2_ns > 0 ∧
    (t1_ns - c.prev_t1_ns < MIN_DELTA_NS ∨ t1_ns - c.prev_t1_ns > MAX_DELTA_NS ∨
     t2_ns - c.prev_t2_ns < MIN_DELTA_NS ∨ t2_ns - c.prev_t2_ns > MAX_DELTA_NS)

instance (c : PtpController) (t1_ns t2_ns : Int) :
    Decidable (delta_out_of_range c t1_ns t2_ns) := by
  unfold delta_out_of_range; infer_instance

/-- Calls issued to the SystemClock trait object. -/
inductive ClockOp where
  | step_clock (offset_ns : Nat) (sign : Int)
  | adjust_frequency (factor : ℚ)
deriving Repr, DecidableEq

/-- Result of one controller step: the new state, the clock calls issued in
order, and whether the epoch_aligned assignment (controller.rs line 221)
executed during the step. -/
structure StepOut where
  state : PtpController
  ops : List ClockOp
  epoch_assigned : Bool
deriving Repr, DecidableEq

/-- Tail of handle_sync_pair (controller.rs lines 241-254): sample the
servo on the stored phase offset, apply factor 1 + adj_ppm / 10^6, update
prev_t1/t2. `pre` carries clock calls already issued earlier in the same
invocation, `assigned` whether epoch_aligned was assigned earlier in it. -/
def locked_update (c : PtpController) (t1_ns t2_ns : Int) (pre : List ClockOp)
    (assigned : Bool) : StepOut :=
  let r := c.servo.sample c.last_phase_offset_ns
  let c := { c with servo := r.1, last_adj_ppm := r.2 }
  let factor : ℚ := 1 + r.2 / 1000000
  { state := { c with prev_t1_ns := t1_ns, prev_t2_ns := t2_ns }
    ops := pre ++ [ClockOp.adjust_frequency factor]
    epoch_assigned := assigned }

/-- PtpController::handle_sync_pair from controller.rs lines 192-255.
`step_ok` is the success oracle for clock.step_clock; t2 arrives as the
wallclock receive time in nanoseconds (SystemTime converted exactly as the
code does with duration_since(UNIX_EPOCH)). -/
def handle_sync_pair (step_ok : Bool) (c0 : PtpController) (t1_ns : Int)
    (t2_sys_ns : Nat) : StepOut :=
  let t2_ns : Int := (t2_sys_ns : Int)
  let phase_offset_ns := normalize_phase t1_ns t2_ns
  let c := { c0 with last_phase_offset_ns := phase_offset_ns }
  if delta_out_of_range c t1_ns t2_ns then
    { state := { c with prev_t1_ns := t1_ns, prev_t2_ns := t2_ns }
      ops := [], epoch_assigned := false }
  else
    let c := { c with valid_count := c.valid_count + 1 }
    if c.valid_count ≥ c.settling_threshold then
      if c.clock_settled then
        locked_update c t1_ns t2_ns [] false
      else
        let c := { c with clock_settled := true
                          initial_epoch_offset_ns := t2_ns - t1_ns
                          epoch_aligned := true }
        if |phase_offset_ns| > MAX_PHASE_OFFSET_FOR_STEP_NS then
          let op := ClockOp.step_clock phase_offset_ns.natAbs
            (if phase_offset_ns > 0 then -1 else 1)
          if step_ok then
            { state := reset_filter { c with servo := c.servo.reset }
              ops := [op], epoch_assigned := true }
          else
            locked_update c t1_ns t2_ns [op] true
        else
          locked_update c t1_ns t2_ns [] true
    else
      { state := { c with prev_t1_ns := t1_ns, prev_t2_ns := t2_ns }
        ops := [], epoch_assigned := false }

/-- Decoded PTP messages as the controller consumes them (controller.rs
lines 165-182, after PtpV1Header / PtpV1FollowUpBody parsing). -/
inductive PtpMsg where
  | sync (sequence_id : Nat) (source_uuid : List Nat)
  | followUp (source_uuid : List Nat) (associated_sequence_id : Nat)
      (precise_origin_timestamp : PtpTimestamp)
  | otherMsg
deriving Repr, DecidableEq

/-- Garbage-collection pass of process_loop_iteration (controller.rs lines
184-187): when the table holds more than 100 entries, retain exactly the
entries whose age is below 5 s. `duration_since` on an entry from the
future errors and unwrap_or gives ZERO, which truncated Nat subtraction
reproduces. -/
def gc_pass (m : List (Nat × PendingSync)) (now_sys_ns : Nat) :
    List (Nat × PendingSync) :=
  if m.length > 100 then
    m.filter (fun kv => decide (now_sys_ns - kv.2.rx_time_sys < 5000000000))
  else m

/-- PtpController::process_loop_iteration from controller.rs lines 150-190,
on one already-decoded message (short or malformed packets become
`otherMsg`-like no-ops before this point). -/
def process_loop_iteration (step_ok : Bool) (c : PtpController) (msg : PtpMsg)
    (t2_sys_ns : Nat) (now_sys_ns : Nat) : StepOut :=
  let r : StepOut :=
    match msg with
    | .sync seq uuid =>
        let entry : PendingSync := { rx_time_sys := t2_sys_ns, source_uuid := uuid }
        { state := { c with pending_syncs := mapInsert c.pending_syncs seq entry }
          ops := [], epoch_assigned := false }
    | .followUp uuid assoc ts =>
        match mapLookup c.pending_syncs assoc with
        | none => { state := c, ops := [], epoch_assigned := false }
        | some sync_info =>
            let c := { c with pending_syncs := mapErase c.pending_syncs assoc }
            if sync_info.source_uuid = uuid then
              handle_sync_pair step_ok c ts.to_nanos sync_info.rx_time_sys
            else
              { state := c, ops := [], epoch_assigned := false }
    | .otherMsg => { state := c, ops := [], epoch_assigned := false }
  { r with state := { r.state with pending_syncs := gc_pass r.state.pending_syncs now_sys_ns } }

/-- Result of NtpSource::get_offset as the controller consumes it: a
magnitude in nanoseconds with a sign, or a failure. -/
inductive NtpReply where
  | ok (offset_ns : Nat) (sign : Int)
  | err
deriving Repr, DecidableEq

/-- Duration::as_millis on a duration of `ns` nanoseconds. -/
def duration_as_millis (ns : Nat) : Nat := ns / 1000000

/-- PtpController::run_ntp_sync from controller.rs lines 82-105. Only the
clock is touched, so the returned controller state is the input state; the
clock calls issued are collected. -/
def run_ntp_sync (c : PtpController) (skip : Bool) (reply : NtpReply) :
    PtpController × List ClockOp :=
  if skip then (c, [])
  else
    match reply with
    | .ok offset_ns sign =>
        if duration_as_millis offset_ns > 50 then
          (c, [ClockOp.step_clock offset_ns sign])
        else (c, [])
    | .err => (c, [])

/-- C timeval as used by LinuxClock::step_clock (clock/linux.rs). -/
structure Timeval where
  tv_sec : Int
  tv_usec : Int
deriving Repr, DecidableEq

/-- First normalization loop of LinuxClock::step_clock:
while tv_usec >= 1_000_000 carry one second up. -/
def carry_up (sec usec : Int) : Int × Int :=
  if usec ≥ 1000000 then carry_up (sec + 1) (usec - 1000000) else (sec, usec)
termination_by usec.toNat
decreasing_by omega

/-- Second normalization loop of LinuxClock::step_clock:
while tv_usec < 0 borrow one second down. -/
def carry_down (sec usec : Int) : Int × Int :=
  if usec < 0 then carry_down (sec - 1) (usec + 1000000) else (sec, usec)
termination_by (-usec).toNat
decreasing_by omega

/-- Modelled from Linux kernel semantics of the settimeofday syscall, which
clock/linux.rs invokes: the kernel rejects a timeval whose seconds are
negative or whose microseconds are outside [0, 1_000_000) with EINVAL and
leaves the clock untouched; otherwise the clock is set to the value. -/
def settimeofday (tv : Timeval) : Except Unit Timeval :=
  if tv.tv_sec < 0 ∨ tv.tv_usec < 0 ∨ tv.tv_usec ≥ 1000000 then
    Except.error ()
  else
    Except.ok tv

/-- LinuxClock::step_clock from clock/linux.rs lines 44-74: read the current
time (passed here as `tv_now`), add or subtract the offset split into whole
seconds (Duration::as_secs) and whole microseconds of the remainder
(Duration::subsec_micros), normalize tv_usec, and call settimeofday. On
success the new clock value is returned; on failure the clock is
untouched. -/
def LinuxClock.step_clock (tv_now : Timeval) (offset_ns : Nat) (sign : Int) :
    Except Unit Timeval :=
  let offset_sec : Int := ((offset_ns / 1000000000 : Nat) : Int)
  let offset_usec : Int := ((offset_ns % 1000000000 / 1000 : Nat) : Int)
  let tv : Timeval :=
    if sign > 0 then
      { tv_sec := tv_now.tv_sec + offset_sec, tv_usec := tv_now.tv_usec + offset_usec }
    else
      { tv_sec := tv_now.tv_sec - offset_sec, tv_usec := tv_now.tv_usec - offset_usec }
  let p1 := carry_up tv.tv_sec tv.tv_usec
  let p2 := carry_down p1.1 p1.2
  settimeofday { tv_sec := p2.1, tv_usec := p2.2 }

/-- C10 (confirmed): for arbitrary u32 seconds and nanoseconds fields,
PtpTimestamp.to_nanos returns exactly seconds * 10^9 + nanoseconds, the
result is nonnegative, and it stays below 2^63 - 1, so the i64 computation
in ptp.rs never overflows. -/
theorem to_nanos_exact_and_in_i64_range (s n : Nat)
    (hs : s < 4294967296) (hn : n < 4294967296) :
    (PtpTimestamp.mk s n).to_nanos = (s : Int) * 1000000000 + (n : Int) ∧
    0 ≤ (PtpTimestamp.mk s n).to_nanos ∧
    (PtpTimestamp.mk s n).to_nanos < 9223372036854775807 := by
  unfold PtpTimestamp.to_nanos
  refine ⟨rfl, ?_, ?_⟩ <;> simp only [] <;> omega

/-- Witness for C10 at the maximal u32 values. -/
theorem to_nanos_exact_and_in_i64_range_witness :
    (4294967295 : Nat) < 4294967296 ∧
    ((PtpTimestamp.mk 4294967295 4294967295).to_nanos =
        (4294967295 : Int) * 1000000000 + (4294967295 : Int) ∧
      0 ≤ (PtpTimestamp.mk 4294967295 4294967295).to_nanos ∧
      (PtpTimestamp.mk 4294967295 4294967295).to_nanos < 9223372036854775807) :=
  ⟨by decide,
   to_nanos_exact_and_in_i64_range 4294967295 4294967295 (by decide) (by decide)⟩

/-- C3 counterexample: at T1 = 5 * 10^8, T2 = 0 the normalized phase offset
is exactly -5 * 10^8, so it is not strictly greater than -5 * 10^8 as the
claim requires. -/
theorem normalize_phase_hits_lower_endpoint :
    normalize_phase 500000000 0 = -500000000 ∧
    ¬ (-500000000 < normalize_phase 500000000 0) := by
  constructor <;> decide

/-- C3 (amended): for arbitrary nonnegative T1, T2 the normalized phase
offset lies in the closed interval [-5 * 10^8, +5 * 10^8]; both endpoints
are attainable, so the half-open interval of the claim is off by one at the
lower end. -/
theorem normalize_phase_range (t1_ns t2_ns : Int)
    (h1 : 0 ≤ t1_ns) (h2 : 0 ≤ t2_ns) :
    -500000000 ≤ normalize_phase t1_ns t2_ns ∧
      normalize_phase t1_ns t2_ns ≤ 500000000 := by
  unfold normalize_phase
  have b1l : 0 ≤ Int.tmod t1_ns 1000000000 := Int.tmod_nonneg _ h1
  have b1u : Int.tmod t1_ns 1000000000 < 1000000000 :=
    Int.tmod_lt_of_pos _ (by norm_num)
  have b2l : 0 ≤ Int.tmod t2_ns 1000000000 := Int.tmod_nonneg _ h2
  have b2u : Int.tmod t2_ns 1000000000 < 1000000000 :=
    Int.tmod_lt_of_pos _ (by norm_num)
  simp only []
  split <;> [skip; split] <;> omega

/-- Witness for C3 (amended) at T1 = T2 = 0. -/
theorem normalize_phase_range_witness :
    (0 : Int) ≤ 0 ∧
    (-500000000 ≤ normalize_phase 0 0 ∧ normalize_phase 0 0 ≤ 500000000) :=
  ⟨by decide, normalize_phase_range 0 0 (by decide) (by decide)⟩

/-- C8 counterexample: the NTP client returns Ok with magnitude 50.5 ms,
which is strictly greater than 50 ms, yet the controller issues no clock
call because Duration::as_millis truncates to 50. -/
theorem run_ntp_sync_no_step_at_50p5ms :
    (50 * 1000000 : Nat) < 50500000 ∧
    run_ntp_sync PtpController.new false (NtpReply.ok 50500000 1) =
      (PtpController.new, []) :=
  ⟨by decide, rfl⟩

/-- C8 (amended): on Ok the controller steps the clock exactly once with
the returned magnitude and sign iff the magnitude truncated to whole
milliseconds exceeds 50 (equivalently, iff it is at least 51 ms); otherwise
it issues no clock call; on Err it performs no clock operation and the
controller state is unchanged in every case. -/
theorem run_ntp_sync_spec (c : PtpController) (offset_ns : Nat) (sign : Int) :
    (duration_as_millis offset_ns > 50 →
      run_ntp_sync c false (NtpReply.ok offset_ns sign) =
        (c, [ClockOp.step_clock offset_ns sign])) ∧
    (duration_as_millis offset_ns ≤ 50 →
      run_ntp_sync c false (NtpReply.ok offset_ns sign) = (c, [])) ∧
    run_ntp_sync c false NtpReply.err = (c, []) := by
  unfold run_ntp_sync
  refine ⟨fun h => ?_, fun h => ?_, rfl⟩ <;> simp [h, Nat.not_lt.mpr h]

/-- Witness for C8 (amended) at a 2 s offset. -/
theorem run_ntp_sync_spec_witness :
    duration_as_millis 2000000000 > 50 ∧
    run_ntp_sync PtpController.new false (NtpReply.ok 2000000000 1) =
      (PtpController.new, [ClockOp.step_clock 2000000000 1]) :=
  ⟨by decide,
   (run_ntp_sync_spec PtpController.new 2000000000 1).1 (by decide)⟩

/-- C6 (confirmed): PiServo.sample computes error = -offset_ns, updates the
integral to clamp(integral + error * ki, plus-minus max_integral), and
returns error * kp + integral; consequently, whenever max_integral is
nonnegative (it is 200 in PiServo::new), the integral magnitude is bounded
by max_integral after every sample and after every reset. -/
theorem servo_sample_spec (s : PiServo) (offset_ns : Int)
    (hmax : 0 ≤ s.max_integral) :
    (s.sample offset_ns).1.integral
        = clampQ (s.integral + -(offset_ns : ℚ) * s.ki) s.max_integral ∧
    (s.sample offset_ns).2
        = -(offset_ns : ℚ) * s.kp + (s.sample offset_ns).1.integral ∧
    |(s.sample offset_ns).1.integral| ≤ s.max_integral ∧
    |s.reset.integral| ≤ s.max_integral := by
  simp only [PiServo.sample, PiServo.reset, clampQ]
  split_ifs <;>
    exact ⟨by linarith, by trivial, abs_le.mpr ⟨by linarith, by linarith⟩,
      abs_le.mpr ⟨by linarith, by linarith⟩⟩

/-- Witness for C6 on the controller's servo (gains 0.8 / 0.2) at a 1000 ns
offset. -/
theorem servo_sample_spec_witness :
    0 ≤ (PiServo.new (8/10) (2/10)).max_integral ∧
    (((PiServo.new (8/10) (2/10)).sample 1000).1.integral
        = clampQ ((PiServo.new (8/10) (2/10)).integral
            + -((1000 : Int) : ℚ) * (PiServo.new (8/10) (2/10)).ki)
            (PiServo.new (8/10) (2/10)).max_integral ∧
      ((PiServo.new (8/10) (2/10)).sample 1000).2
        = -((1000 : Int) : ℚ) * (PiServo.new (8/10) (2/10)).kp
            + ((PiServo.new (8/10) (2/10)).sample 1000).1.integral ∧
      |((PiServo.new (8/10) (2/10)).sample 1000).1.integral|
        ≤ (PiServo.new (8/10) (2/10)).max_integral ∧
      |(PiServo.new (8/10) (2/10)).reset.integral|
        ≤ (PiServo.new (8/10) (2/10)).max_integral) :=
  ⟨by norm_num [PiServo.new],
   servo_sample_spec (PiServo.new (8/10) (2/10)) 1000 (by norm_num [PiServo.new])⟩

set_option maxRecDepth 100000 in
/-- C4 counterexample: feeding 101 Sync messages with distinct sequence ids
(all received at wallclock 0) to a fresh controller leaves 101 entries in
the pairer table even though the garbage-collection pass did run on the
101st message: GC does not bound the table to 100 entries. -/
theorem gc_leaves_101_fresh_entries :
    ((List.range 101).foldl
        (fun c i => (process_loop_iteration true c (PtpMsg.sync i []) 0 0).state)
        PtpController.new).pending_syncs.length = 101 := by
  decide

/-- C4 (amended): a garbage-collection pass changes nothing while the table
holds at most 100 entries (so an entry can outlive 5 s), and when the table
holds more than 100 entries it retains exactly the entries younger than 5 s
by wallclock — every survivor is fresh, but the survivors may still number
more than 100. -/
theorem gc_pass_spec (m : List (Nat × PendingSync)) (now_sys_ns : Nat) :
    (m.length ≤ 100 → gc_pass m now_sys_ns = m) ∧
    (m.length > 100 →
      gc_pass m now_sys_ns
        = m.filter (fun kv => decide (now_sys_ns - kv.2.rx_time_sys < 5000000000)) ∧
      ∀ kv ∈ gc_pass m now_sys_ns, now_sys_ns - kv.2.rx_time_sys < 5000000000) := by
  unfold gc_pass
  constructor
  · intro h
    rw [if_neg (by omega)]
  · intro h
    rw [if_pos (by omega)]
    refine ⟨rfl, fun kv hkv => ?_⟩
    have := (List.mem_filter.mp hkv).2
    simpa using this

/-- Witness for C4 (amended) on the empty table. -/
theorem gc_pass_spec_witness :
    ([] : List (Nat × PendingSync)).length ≤ 100 ∧
    gc_pass [] 0 = ([] : List (Nat × PendingSync)) :=
  ⟨by decide, (gc_pass_spec [] 0).1 (by decide)⟩

/-- Looking up a key right after erasing it finds nothing. -/
theorem mapLookup_erase_self (m : List (Nat × PendingSync)) (k : Nat) :
    mapLookup (mapErase m k) k = none := by
  induction m with
  | nil => rfl
  | cons kv rest ih =>
      unfold mapErase at ih ⊢
      by_cases h : kv.1 = k
      · simpa [List.filter_cons, h] using ih
      · simpa [List.filter_cons, h, mapLookup] using ih

/-- Filtering cannot make an absent key present. -/
theorem mapLookup_filter_none (m : List (Nat × PendingSync)) (k : Nat)
    (p : Nat × PendingSync → Bool) (h : mapLookup m k = none) :
    mapLookup (m.filter p) k = none := by
  induction m with
  | nil => rfl
  | cons kv rest ih =>
      unfold mapLookup at h
      by_cases hk : kv.1 = k
      · simp [hk] at h
      · rw [if_neg hk] at h
        rw [List.filter_cons]
        by_cases hp : p kv
        · simpa [hp, mapLookup, hk] using ih h
        · simpa [hp] using ih h

/-- A garbage-collection pass cannot make an absent key present. -/
theorem mapLookup_gc_none (m : List (Nat × PendingSync)) (now k : Nat)
    (h : mapLookup m k = none) : mapLookup (gc_pass m now) k = none := by
  unfold gc_pass
  split
  · exact mapLookup_filter_none m k _ h
  · exact h

/-- C1 counterexample: insert a pending Sync (seq 1, uuid AA) and then
process a FollowUp for seq 1 with uuid BB. No pair is emitted, but the
pending entry is gone immediately — it does not remain until garbage
collection, because HashMap::remove runs before the uuid comparison. -/
theorem followup_uuid_mismatch_removes_entry :
    (let c1 := (process_loop_iteration true PtpController.new
        (PtpMsg.sync 1 [170]) 1000 0).state
     mapLookup c1.pending_syncs 1
        = some { rx_time_sys := 1000, source_uuid := [170] } ∧
     (let r := process_loop_iteration true c1
        (PtpMsg.followUp [187] 1 (PtpTimestamp.mk 0 0)) 1000 0
      r.ops = [] ∧ mapLookup r.state.pending_syncs 1 = none)) := by
  exact ⟨rfl, rfl, rfl⟩

/-- C1 (amended): for every FollowUp whose associated_sequence_id matches a
pending entry but whose source_uuid differs from the stored one, no (T1, T2)
pair is processed — no clock call is issued and no lock transition happens —
but the pending entry is removed from the pairer table by that FollowUp
(the code removes the entry before comparing UUIDs); nothing else in the
controller state changes. -/
theorem followup_uuid_mismatch_drops_pair (step_ok : Bool) (c : PtpController)
    (uuid : List Nat) (assoc : Nat) (ts : PtpTimestamp) (t2 now : Nat)
    (info : PendingSync)
    (hfound : mapLookup c.pending_syncs assoc = some info)
    (hne : info.source_uuid ≠ uuid) :
    (process_loop_iteration step_ok c (PtpMsg.followUp uuid assoc ts) t2 now).ops
        = [] ∧
    (process_loop_iteration step_ok c (PtpMsg.followUp uuid assoc ts) t2 now).epoch_assigned
        = false ∧
    mapLookup (process_loop_iteration step_ok c
        (PtpMsg.followUp uuid assoc ts) t2 now).state.pending_syncs assoc
        = none ∧
    (process_loop_iteration step_ok c (PtpMsg.followUp uuid assoc ts) t2 now).state
        = { c with pending_syncs := gc_pass (mapErase c.pending_syncs assoc) now } := by
  unfold process_loop_iteration
  simp only [hfound, if_neg hne]
  refine ⟨by trivial, by trivial, ?_, by trivial⟩
  exact mapLookup_gc_none _ now assoc (mapLookup_erase_self c.pending_syncs assoc)

/-- Witness for C1 (amended) on a one-entry table. -/
theorem followup_uuid_mismatch_drops_pair_witness :
    mapLookup [(1, ({ rx_time_sys := 1000, source_uuid := [170] } : PendingSync))] 1
        = some { rx_time_sys := 1000, source_uuid := [170] } ∧
    ([170] : List Nat) ≠ [187] ∧
    (process_loop_iteration true
        { PtpController.new with
            pending_syncs := [(1, { rx_time_sys := 1000, source_uuid := [170] })] }
        (PtpMsg.followUp [187] 1 (PtpTimestamp.mk 0 0)) 1000 0).ops = [] :=
  ⟨by decide, by decide,
   (followup_uuid_mismatch_drops_pair true
      { PtpController.new with
          pending_syncs := [(1, { rx_time_sys := 1000, source_uuid := [170] })] }
      [187] 1 (PtpTimestamp.mk 0 0) 1000 0
      { rx_time_sys := 1000, source_uuid := [170] }
      (by decide) (by decide)).1⟩

/-- Sign of the negated offset, written as the branch the code takes. -/
theorem sign_neg_of_ne_zero (ph : Int) (h : ph ≠ 0) :
    Int.sign (-ph) = if ph > 0 then (-1 : Int) else 1 := by
  rcases lt_trichotomy ph 0 with hl | he | hg
  · rw [if_neg (by omega), Int.sign_neg, Int.sign_eq_neg_one_iff_neg.mpr hl]
    norm_num
  · exact absurd he h
  · rw [if_pos hg, Int.sign_neg, Int.sign_eq_one_iff_pos.mpr hg]

/-- C2 counterexample: at first lock with a 50 ms offset and a successful
step (the step_clock call is issued with magnitude 50 ms and sign -1), a
pending entry inserted beforehand is still in the pairer table afterwards:
the claimed pairer-table reset does not happen. -/
theorem first_lock_step_keeps_pairer :
    (handle_sync_pair true
        { PtpController.new with
            pending_syncs := [(7, { rx_time_sys := 0, source_uuid := [1] })] }
        0 50000000).ops = [ClockOp.step_clock 50000000 (-1)] ∧
    (handle_sync_pair true
        { PtpController.new with
            pending_syncs := [(7, { rx_time_sys := 0, source_uuid := [1] })] }
        0 50000000).state.pending_syncs
      = [(7, { rx_time_sys := 0, source_uuid := [1] })] := by
  exact ⟨rfl, rfl⟩

/-- C2 (amended): on the first valid pair reaching the settling threshold
from the unsettled state, with normalized offset beyond the 1 ms step
threshold and a successful step, the controller issues exactly one
step_clock call with magnitude |offset_ns| and sign sign(-offset_ns),
zeroes the servo integral and the prev-pair state, clears valid_count and
clock_settled (returning to INIT) without sampling the servo, and marks
epoch_aligned; the pairer table, however, is left untouched rather than
reset. -/
theorem first_lock_large_offset_steps (c : PtpController) (t1_ns : Int)
    (t2_sys_ns : Nat)
    (hsettled : c.clock_settled = false)
    (hprev : c.prev_t1_ns = 0)
    (hth : c.settling_threshold ≤ c.valid_count + 1)
    (hph : |normalize_phase t1_ns (t2_sys_ns : Int)| > MAX_PHASE_OFFSET_FOR_STEP_NS) :
    (handle_sync_pair true c t1_ns t2_sys_ns).ops
        = [ClockOp.step_clock (normalize_phase t1_ns (t2_sys_ns : Int)).natAbs
            (Int.sign (-(normalize_phase t1_ns (t2_sys_ns : Int))))] ∧
    (handle_sync_pair true c t1_ns t2_sys_ns).state.valid_count = 0 ∧
    (handle_sync_pair true c t1_ns t2_sys_ns).state.clock_settled = false ∧
    (handle_sync_pair true c t1_ns t2_sys_ns).state.prev_t1_ns = 0 ∧
    (handle_sync_pair true c t1_ns t2_sys_ns).state.prev_t2_ns = 0 ∧
    (handle_sync_pair true c t1_ns t2_sys_ns).state.servo.integral = 0 ∧
    (handle_sync_pair true c t1_ns t2_sys_ns).state.pending_syncs = c.pending_syncs ∧
    (handle_sync_pair true c t1_ns t2_sys_ns).state.epoch_aligned = true ∧
    (handle_sync_pair true c t1_ns t2_sys_ns).epoch_assigned = true := by
  have hne0 : normalize_phase t1_ns (t2_sys_ns : Int) ≠ 0 := by
    intro h0
    rw [h0] at hph
    norm_num [MAX_PHASE_OFFSET_FOR_STEP_NS] at hph
  obtain ⟨sv, ps, p1, p2, lpo, lap, ieo, ea, vc, cs, st⟩ := c
  simp only at hsettled hprev hth
  subst hsettled hprev
  unfold handle_sync_pair
  rw [if_neg (by simp [delta_out_of_range])]
  rw [if_pos hth]
  rw [sign_neg_of_ne_zero _ hne0]
  simp only [Bool.false_eq_true, if_false, if_true]
  rw [if_pos hph]
  exact ⟨rfl, rfl, rfl, rfl, rfl, rfl, rfl, rfl, rfl⟩

/-- Witness for C2 (amended): fresh controller, T1 = 0, T2 = 50 ms. -/
theorem first_lock_large_offset_steps_witness :
    (PtpController.new.clock_settled = false ∧
      PtpController.new.prev_t1_ns = 0 ∧
      PtpController.new.settling_threshold ≤ PtpController.new.valid_count + 1 ∧
      |normalize_phase 0 ((50000000 : Nat) : Int)| > MAX_PHASE_OFFSET_FOR_STEP_NS) ∧
    (handle_sync_pair true PtpController.new 0 50000000).ops
      = [ClockOp.step_clock (normalize_phase 0 ((50000000 : Nat) : Int)).natAbs
          (Int.sign (-(normalize_phase 0 ((50000000 : Nat) : Int))))] :=
  ⟨⟨rfl, rfl, by decide, by decide⟩,
   (first_lock_large_offset_steps PtpController.new 0 50000000
      rfl rfl (by decide) (by decide)).1⟩

/-- C5 (amended): on every locked update (valid pair processed while
settled) the controller takes adj_ppm = servo.sample(offset_ns) and passes
it to the clock UNCLAMPED as factor 1 + adj_ppm / 10^6: no clamp to a
max_freq_adj_ppm is applied anywhere between servo and clock (the config
field of that name is legacy and never read by the controller), so the
applied magnitude is bounded only by what the servo itself produces. -/
theorem locked_update_applies_raw_servo_output (step_ok : Bool)
    (c : PtpController) (t1_ns : Int) (t2_sys_ns : Nat)
    (hsettled : c.clock_settled = true)
    (hvalid : ¬ delta_out_of_range c t1_ns ((t2_sys_ns : Nat) : Int))
    (hth : c.settling_threshold ≤ c.valid_count + 1) :
    (handle_sync_pair step_ok c t1_ns t2_sys_ns).ops
        = [ClockOp.adjust_frequency
            (1 + (c.servo.sample (normalize_phase t1_ns ((t2_sys_ns : Nat) : Int))).2
              / 1000000)] ∧
    (handle_sync_pair step_ok c t1_ns t2_sys_ns).state.last_adj_ppm
        = (c.servo.sample (normalize_phase t1_ns ((t2_sys_ns : Nat) : Int))).2 ∧
    (handle_sync_pair step_ok c t1_ns t2_sys_ns).state.servo
        = (c.servo.sample (normalize_phase t1_ns ((t2_sys_ns : Nat) : Int))).1 := by
  obtain ⟨sv, ps, p1, p2, lpo, lap, ieo, ea, vc, cs, st⟩ := c
  simp only at hsettled hth hvalid
  subst hsettled
  unfold handle_sync_pair
  dsimp only
  split
  next h => exact absurd h hvalid
  next h =>
    rw [if_pos rfl]
    unfold locked_update
    exact ⟨rfl, rfl, rfl⟩

/-- C5 counterexample: a settled controller receiving a pair with the
maximal normalized offset (5 * 10^8 ns) applies a frequency factor whose
ppm magnitude is 400000200 — vastly beyond the configured default
max_freq_adj_ppm of 500 — because no clamping exists. -/
theorem locked_update_exceeds_max_freq_adj_ppm :
    (handle_sync_pair true
        { PtpController.new with clock_settled := true, valid_count := 1 }
        0 500000000).ops
      = [ClockOp.adjust_frequency (1 + (-400000200 : ℚ) / 1000000)] ∧
    (400000200 : ℚ) > max_freq_adj_ppm_default := by
  constructor
  · have hph : normalize_phase 0 ((500000000 : Nat) : Int) = 500000000 := by decide
    have hph2 : normalize_phase 0 (500000000 : Int) = 500000000 := by decide
    unfold handle_sync_pair
    dsimp only
    split
    next h => exact absurd h (by simp [delta_out_of_range, PtpController.new])
    next h =>
      rw [if_pos (by norm_num [PtpController.new]), if_pos rfl]
      unfold locked_update PiServo.sample
      dsimp only
      norm_num [PtpController.new, PiServo.new, hph, hph2]
  · norm_num [max_freq_adj_ppm_default]

/-- Witness for C5 (amended) on a settled controller at zero offset. -/
theorem locked_update_applies_raw_servo_output_witness :
    (({ PtpController.new with clock_settled := true, valid_count := 1 }
        : PtpController).clock_settled = true ∧
      ¬ delta_out_of_range
        { PtpController.new with clock_settled := true, valid_count := 1 } 0 ((0 : Nat) : Int) ∧
      ({ PtpController.new with clock_settled := true, valid_count := 1 }
        : PtpController).settling_threshold
        ≤ ({ PtpController.new with clock_settled := true, valid_count := 1 }
            : PtpController).valid_count + 1) ∧
    (handle_sync_pair true
        { PtpController.new with clock_settled := true, valid_count := 1 } 0 0).ops
      = [ClockOp.adjust_frequency
          (1 + (({ PtpController.new with clock_settled := true, valid_count := 1 }
              : PtpController).servo.sample (normalize_phase 0 ((0 : Nat) : Int))).2
            / 1000000)] :=
  ⟨⟨rfl, by decide, by decide⟩,
   (locked_update_applies_raw_servo_output true
      { PtpController.new with clock_settled := true, valid_count := 1 } 0 0
      rfl (by decide) (by decide)).1⟩

/-- Once settled, handle_sync_pair never clears clock_settled: reset_filter
is only reachable from the not-yet-settled branch. -/
theorem handle_sync_pair_preserves_settled (step_ok : Bool) (c : PtpController)
    (t1_ns : Int) (t2_sys_ns : Nat) (h : c.clock_settled = true) :
    (handle_sync_pair step_ok c t1_ns t2_sys_ns).state.clock_settled = true := by
  obtain ⟨sv, ps, p1, p2, lpo, lap, ieo, ea, vc, cs, st⟩ := c
  simp only at h
  subst h
  unfold handle_sync_pair locked_update
  dsimp only
  split_ifs <;> first | rfl | exact absurd rfl (by assumption)

/-- C7 (confirmed): across every processed message the settled flag is
monotone — once clock_settled is true it remains true (reset_filter is
unreachable once settled) — and the epoch_aligned assignment of
handle_sync_pair executes exactly on lock transitions: precisely when the
controller is not yet settled and the incoming pair is accepted by the
plausibility filter and brings valid_count to the settling threshold, so it
runs exactly once per lock. -/
theorem settled_monotone_and_epoch_once (step_ok : Bool) (c : PtpController)
    (msg : PtpMsg) (t2_sys_ns now_sys_ns : Nat) (t1_ns : Int) (u : Nat) :
    (c.clock_settled = true →
      (process_loop_iteration step_ok c msg t2_sys_ns now_sys_ns).state.clock_settled
        = true) ∧
    ((handle_sync_pair step_ok c t1_ns u).epoch_assigned = true ↔
      (¬ delta_out_of_range c t1_ns ((u : Nat) : Int) ∧
        c.settling_threshold ≤ c.valid_count + 1 ∧
        c.clock_settled = false)) := by
  constructor
  · intro h
    unfold process_loop_iteration
    cases msg with
    | sync seq uuid => exact h
    | otherMsg => exact h
    | followUp uuid assoc ts =>
        dsimp only
        cases hl : mapLookup c.pending_syncs assoc with
        | none => simp only [hl]; exact h
        | some info =>
            simp only [hl]
            by_cases he : info.source_uuid = uuid
            · rw [if_pos he]
              exact handle_sync_pair_preserves_settled step_ok _ _ _ h
            · rw [if_neg he]
              exact h
  · obtain ⟨sv, ps, p1, p2, lpo, lap, ieo, ea, vc, cs, st⟩ := c
    unfold handle_sync_pair locked_update
    dsimp only
    split
    next h =>
      have h' : delta_out_of_range
          ⟨sv, ps, p1, p2, lpo, lap, ieo, ea, vc, cs, st⟩ t1_ns ((u : Nat) : Int) := h
      constructor
      · intro hfalse
        exact Bool.noConfusion hfalse
      · rintro ⟨hnd, -, -⟩
        exact absurd h' hnd
    next h =>
      have h' : ¬ delta_out_of_range
          ⟨sv, ps, p1, p2, lpo, lap, ieo, ea, vc, cs, st⟩ t1_ns ((u : Nat) : Int) := h
      split
      next hc =>
        split
        next hs =>
          constructor
          · intro hfalse
            exact Bool.noConfusion hfalse
          · rintro ⟨-, -, hcs2⟩
            rw [hcs2] at hs
            exact Bool.noConfusion hs
        next hs =>
          have hcs : cs = false := by
            cases cs
            · rfl
            · exact absurd rfl hs
          split
          next hp =>
            split
            next ho =>
              constructor
              · intro _
                exact ⟨h', hc, hcs⟩
              · intro _
                rfl
            next ho =>
              constructor
              · intro _
                exact ⟨h', hc, hcs⟩
              · intro _
                rfl
          next hp =>
            constructor
            · intro _
              exact ⟨h', hc, hcs⟩
            · intro _
              rfl
      next hc =>
        constructor
        · intro hfalse
          exact Bool.noConfusion hfalse
        · rintro ⟨-, hth2, -⟩
          exact absurd hth2 hc

/-- Witness for C7 at a settled controller processing a non-PTP message. -/
theorem settled_monotone_and_epoch_once_witness :
    ({ PtpController.new with clock_settled := true } : PtpController).clock_settled
        = true ∧
    (process_loop_iteration true { PtpController.new with clock_settled := true }
        PtpMsg.otherMsg 0 0).state.clock_settled = true :=
  ⟨rfl, (settled_monotone_and_epoch_once true
      { PtpController.new with clock_settled := true }
      PtpMsg.otherMsg 0 0 0 0).1 rfl⟩

/-- The carry-up loop preserves the total time in microseconds. -/
theorem carry_up_total (sec usec : Int) :
    (carry_up sec usec).1 * 1000000 + (carry_up sec usec).2
      = sec * 1000000 + usec := by
  induction sec, usec using carry_up.induct with
  | case1 sec usec h ih =>
      rw [carry_up, if_pos h]
      omega
  | case2 sec usec h =>
      rw [carry_up, if_neg h]

/-- The carry-up loop terminates with microseconds below one million. -/
theorem carry_up_usec_lt (sec usec : Int) : (carry_up sec usec).2 < 1000000 := by
  induction sec, usec using carry_up.induct with
  | case1 sec usec h ih =>
      rw [carry_up, if_pos h]
      exact ih
  | case2 sec usec h =>
      rw [carry_up, if_neg h]
      omega

/-- The carry-down loop preserves the total time in microseconds. -/
theorem carry_down_total (sec usec : Int) :
    (carry_down sec usec).1 * 1000000 + (carry_down sec usec).2
      = sec * 1000000 + usec := by
  induction sec, usec using carry_down.induct with
  | case1 sec usec h ih =>
      rw [carry_down, if_pos h]
      omega
  | case2 sec usec h =>
      rw [carry_down, if_neg h]

/-- The carry-down loop terminates with nonnegative microseconds. -/
theorem carry_down_usec_nonneg (sec usec : Int) : 0 ≤ (carry_down sec usec).2 := by
  induction sec, usec using carry_down.induct with
  | case1 sec usec h ih =>
      rw [carry_down, if_pos h]
      exact ih
  | case2 sec usec h =>
      rw [carry_down, if_neg h]
      omega

/-- The carry-down loop keeps microseconds below one million when they
start below one million. -/
theorem carry_down_usec_lt (sec usec : Int) :
    usec < 1000000 → (carry_down sec usec).2 < 1000000 := by
  induction sec, usec using carry_down.induct with
  | case1 sec usec h ih =>
      intro hu
      rw [carry_down, if_pos h]
      exact ih (by omega)
  | case2 sec usec h =>
      intro hu
      rw [carry_down, if_neg h]
      exact hu

/-- C9 (amended): with a canonical current timeval (nonnegative seconds,
microseconds in [0, 10^6)), step_clock moves the wallclock by sign times
the offset truncated to whole microseconds (any non-positive sign
subtracts), and the call fails — leaving the clock unset — exactly when
that truncated step would make the wallclock negative; sub-microsecond
offset parts are dropped rather than applied, so an offset below 1 us never
moves the clock and never fails, even when it exceeds the wallclock. -/
theorem step_clock_spec (tv_now : Timeval) (offset_ns : Nat) (sign : Int)
    (hsec : 0 ≤ tv_now.tv_sec) (husl : 0 ≤ tv_now.tv_usec)
    (husu : tv_now.tv_usec < 1000000) :
    ((tv_now.tv_sec * 1000000 + tv_now.tv_usec
        + (if sign > 0 then 1 else -1) * ((offset_ns / 1000 : Nat) : Int) < 0) →
      LinuxClock.step_clock tv_now offset_ns sign = Except.error ()) ∧
    ((0 ≤ tv_now.tv_sec * 1000000 + tv_now.tv_usec
        + (if sign > 0 then 1 else -1) * ((offset_ns / 1000 : Nat) : Int)) →
      ∃ tv', LinuxClock.step_clock tv_now offset_ns sign = Except.ok tv' ∧
        tv'.tv_sec * 1000000 + tv'.tv_usec
          = tv_now.tv_sec * 1000000 + tv_now.tv_usec
            + (if sign > 0 then 1 else -1) * ((offset_ns / 1000 : Nat) : Int) ∧
        0 ≤ tv'.tv_usec ∧ tv'.tv_usec < 1000000) := by
  obtain ⟨sec, usec⟩ := tv_now
  simp only at hsec husl husu
  unfold LinuxClock.step_clock settimeofday
  dsimp only
  by_cases hs : sign > 0
  · rw [if_pos hs, if_pos hs]
    dsimp only
    have t1 := carry_up_total (sec + ((offset_ns / 1000000000 : Nat) : Int))
      (usec + ((offset_ns % 1000000000 / 1000 : Nat) : Int))
    have l1 := carry_up_usec_lt (sec + ((offset_ns / 1000000000 : Nat) : Int))
      (usec + ((offset_ns % 1000000000 / 1000 : Nat) : Int))
    have t2 := carry_down_total
      (carry_up (sec + ((offset_ns / 1000000000 : Nat) : Int))
        (usec + ((offset_ns % 1000000000 / 1000 : Nat) : Int))).1
      (carry_up (sec + ((offset_ns / 1000000000 : Nat) : Int))
        (usec + ((offset_ns % 1000000000 / 1000 : Nat) : Int))).2
    have n2 := carry_down_usec_nonneg
      (carry_up (sec + ((offset_ns / 1000000000 : Nat) : Int))
        (usec + ((offset_ns % 1000000000 / 1000 : Nat) : Int))).1
      (carry_up (sec + ((offset_ns / 1000000000 : Nat) : Int))
        (usec + ((offset_ns % 1000000000 / 1000 : Nat) : Int))).2
    have l2 := carry_down_usec_lt
      (carry_up (sec + ((offset_ns / 1000000000 : Nat) : Int))
        (usec + ((offset_ns % 1000000000 / 1000 : Nat) : Int))).1
      (carry_up (sec + ((offset_ns / 1000000000 : Nat) : Int))
        (usec + ((offset_ns % 1000000000 / 1000 : Nat) : Int))).2 l1
    constructor
    · intro hneg
      have hc : (carry_down
          (carry_up (sec + ((offset_ns / 1000000000 : Nat) : Int))
            (usec + ((offset_ns % 1000000000 / 1000 : Nat) : Int))).1
          (carry_up (sec + ((offset_ns / 1000000000 : Nat) : Int))
            (usec + ((offset_ns % 1000000000 / 1000 : Nat) : Int))).2).1 < 0 := by
        omega
      rw [if_pos (Or.inl hc)]
    · intro hpos
      have hc : ¬ ((carry_down
          (carry_up (sec + ((offset_ns / 1000000000 : Nat) : Int))
            (usec + ((offset_ns % 1000000000 / 1000 : Nat) : Int))).1
          (carry_up (sec + ((offset_ns / 1000000000 : Nat) : Int))
            (usec + ((offset_ns % 1000000000 / 1000 : Nat) : Int))).2).1 < 0 ∨
          (carry_down
          (carry_up (sec + ((offset_ns / 1000000000 : Nat) : Int))
            (usec + ((offset_ns % 1000000000 / 1000 : Nat) : Int))).1
          (carry_up (sec + ((offset_ns / 1000000000 : Nat) : Int))
            (usec + ((offset_ns % 1000000000 / 1000 : Nat) : Int))).2).2 < 0 ∨
          (carry_down
          (carry_up (sec + ((offset_ns / 1000000000 : Nat) : Int))
            (usec + ((offset_ns % 1000000000 / 1000 : Nat) : Int))).1
          (carry_up (sec + ((offset_ns / 1000000000 : Nat) : Int))
            (usec + ((offset_ns % 1000000000 / 1000 : Nat) : Int))).2).2 ≥ 1000000) := by
        omega
      rw [if_neg hc]
      refine ⟨_, rfl, ?_, by dsimp only; omega, by dsimp only; omega⟩
      dsimp only
      omega
  · rw [if_neg hs, if_neg hs]
    dsimp only
    have t1 := carry_up_total (sec - ((offset_ns / 1000000000 : Nat) : Int))
      (usec - ((offset_ns % 1000000000 / 1000 : Nat) : Int))
    have l1 := carry_up_usec_lt (sec - ((offset_ns / 1000000000 : Nat) : Int))
      (usec - ((offset_ns % 1000000000 / 1000 : Nat) : Int))
    have t2 := carry_down_total
      (carry_up (sec - ((offset_ns / 1000000000 : Nat) : Int))
        (usec - ((offset_ns % 1000000000 / 1000 : Nat) : Int))).1
      (carry_up (sec - ((offset_ns / 1000000000 : Nat) : Int))
        (usec - ((offset_ns % 1000000000 / 1000 : Nat) : Int))).2
    have n2 := carry_down_usec_nonneg
      (carry_up (sec - ((offset_ns / 1000000000 : Nat) : Int))
        (usec - ((offset_ns % 1000000000 / 1000 : Nat) : Int))).1
      (carry_up (sec - ((offset_ns / 1000000000 : Nat) : Int))
        (usec - ((offset_ns % 1000000000 / 1000 : Nat) : Int))).2
    have l2 := carry_down_usec_lt
      (carry_up (sec - ((offset_ns / 1000000000 : Nat) : Int))
        (usec - ((offset_ns % 1000000000 / 1000 : Nat) : Int))).1
      (carry_up (sec - ((offset_ns / 1000000000 : Nat) : Int))
        (usec - ((offset_ns % 1000000000 / 1000 : Nat) : Int))).2 l1
    constructor
    · intro hneg
      have hc : (carry_down
          (carry_up (sec - ((offset_ns / 1000000000 : Nat) : Int))
            (usec - ((offset_ns % 1000000000 / 1000 : Nat) : Int))).1
          (carry_up (sec - ((offset_ns / 1000000000 : Nat) : Int))
            (usec - ((offset_ns % 1000000000 / 1000 : Nat) : Int))).2).1 < 0 := by
        omega
      rw [if_pos (Or.inl hc)]
    · intro hpos
      have hc : ¬ ((carry_down
          (carry_up (sec - ((offset_ns / 1000000000 : Nat) : Int))
            (usec - ((offset_ns % 1000000000 / 1000 : Nat) : Int))).1
          (carry_up (sec - ((offset_ns / 1000000000 : Nat) : Int))
            (usec - ((offset_ns % 1000000000 / 1000 : Nat) : Int))).2).1 < 0 ∨
          (carry_down
          (carry_up (sec - ((offset_ns / 1000000000 : Nat) : Int))
            (usec - ((offset_ns % 1000000000 / 1000 : Nat) : Int))).1
          (carry_up (sec - ((offset_ns / 1000000000 : Nat) : Int))
            (usec - ((offset_ns % 1000000000 / 1000 : Nat) : Int))).2).2 < 0 ∨
          (carry_down
          (carry_up (sec - ((offset_ns / 1000000000 : Nat) : Int))
            (usec - ((offset_ns % 1000000000 / 1000 : Nat) : Int))).1
          (carry_up (sec - ((offset_ns / 1000000000 : Nat) : Int))
            (usec - ((offset_ns % 1000000000 / 1000 : Nat) : Int))).2).2 ≥ 1000000) := by
        omega
      rw [if_neg hc]
      refine ⟨_, rfl, ?_, by dsimp only; omega, by dsimp only; omega⟩
      dsimp only
      omega

/-- C9 counterexample: stepping back by 1 ns from wallclock zero has a
negative sign and an offset exceeding the current wallclock, so the claim
requires an error (and a move by sign * offset otherwise); instead the code
truncates the offset to whole microseconds — zero — and succeeds via
settimeofday without moving the clock at all. -/
theorem step_clock_drops_subus_offset :
    ((-1 : Int) < 0 ∧ ((0 : Int) * 1000000000 + 0 < 1)) ∧
    LinuxClock.step_clock { tv_sec := 0, tv_usec := 0 } 1 (-1) =
      Except.ok { tv_sec := 0, tv_usec := 0 } := by
  refine ⟨⟨by norm_num, by norm_num⟩, ?_⟩
  unfold LinuxClock.step_clock
  norm_num
  rw [carry_up]
  norm_num
  rw [carry_down]
  norm_num [settimeofday]

/-- Witness for C9 (amended): a 2 ms forward step from wallclock zero. -/
theorem step_clock_spec_witness :
    ((0 : Int) ≤ 0 ∧ (0 : Int) ≤ 0 ∧ (0 : Int) < 1000000) ∧
    (((( { tv_sec := 0, tv_usec := 0 } : Timeval).tv_sec * 1000000
          + ({ tv_sec := 0, tv_usec := 0 } : Timeval).tv_usec
          + (if (1 : Int) > 0 then 1 else -1) * (((2000000 / 1000 : Nat)) : Int) < 0) →
        LinuxClock.step_clock { tv_sec := 0, tv_usec := 0 } 2000000 1
          = Except.error ()) ∧
    ((0 ≤ ({ tv_sec := 0, tv_usec := 0 } : Timeval).tv_sec * 1000000
          + ({ tv_sec := 0, tv_usec := 0 } : Timeval).tv_usec
          + (if (1 : Int) > 0 then 1 else -1) * (((2000000 / 1000 : Nat)) : Int)) →
      ∃ tv', LinuxClock.step_clock { tv_sec := 0, tv_usec := 0 } 2000000 1
          = Except.ok tv' ∧
        tv'.tv_sec * 1000000 + tv'.tv_usec
          = ({ tv_sec := 0, tv_usec := 0 } : Timeval).tv_sec * 1000000
            + ({ tv_sec := 0, tv_usec := 0 } : Timeval).tv_usec
            + (if (1 : Int) > 0 then 1 else -1) * (((2000000 / 1000 : Nat)) : Int) ∧
        0 ≤ tv'.tv_usec ∧ tv'.tv_usec < 1000000)) :=
  ⟨⟨le_refl 0, le_refl 0, by norm_num⟩,
   step_clock_spec { tv_sec := 0, tv_usec := 0 } 2000000 1
     (le_refl 0) (le_refl 0) (by norm_num)⟩
